import Mathlib

/-!
Shallow embedding of `plexapi/collection.py` (class `Collection`), the
client-side wrapper for a Plex media-server "Collection" resource, together
with proofs of the behavioural properties stated in the module's design
specification.

Modelling conventions:
* Every operation that may talk to the server returns the list of HTTP
  requests it actually issued paired with the error it raised, if any
  (`OpResult`).  In the source, every validation failure is raised strictly
  before the first `self._server.query(...)` call, and this shows up here as
  an empty request list next to the error.
* The transport collaborator (`PlexServer.query`, `_session`), the generic
  fetch (`fetchItems`) and the query-string encoder (`utils.joinArgs`) are
  external to the module; requests are therefore recorded structurally
  (method, path, reference URI) rather than as encoded URL strings.
* Python exceptions `BadRequest` / `NotFound` / `Unsupported`
  (`plexapi/exceptions.py`) are the error kinds the spec calls
  `InvalidOperation`-or-`InvalidArgument` / `NotFoundError` /
  `UnsupportedKind`.
* Python `str.lower()` is modelled character-wise (`pyLower`) and
  `str.replace(old, '')` is modelled by `pyReplaceRemove`, a left-to-right,
  non-overlapping removal of every occurrence of `old`, exactly as CPython
  performs it.
-/

deriving instance DecidableEq for Except

namespace PlexAPI

/-- One HTTP request issued to the media server.  `path` is the endpoint
path; `uri` is the `uri=` query parameter carrying a reference or filter URI
when the operation sends one; `setting` is the advanced-setting
`<settingKey>=<value>` pair for preference edits.  Remaining query
parameters (`type`, `title`, `smart`, `sectionId`), encoded by the external
`utils.joinArgs`, are outside this module's claims and not recorded. -/
structure Request where
  method : String
  path : String
  uri : Option String := none
  setting : Option (String × Int) := none
deriving Repr, DecidableEq

/-- The exception kinds raised by `plexapi/collection.py`
(from `plexapi.exceptions`): `BadRequest`, `NotFound`, `Unsupported`. -/
inductive PlexError where
  | badRequest (msg : String)
  | notFound (msg : String)
  | unsupported (msg : String)
deriving Repr, DecidableEq

/-- Outcome of an operation: the requests it issued, in order, and the
exception it raised, if any. -/
abbrev OpResult := List Request × Option PlexError

/-- A media item handed to the membership operations.  The source only
reads `item.type`, `item.ratingKey` and (for title lookup) `item.title`. -/
structure Item where
  type : String
  ratingKey : Nat
  title : String
deriving Repr, DecidableEq

/-- The fields of a parsed `Collection` that the verified operations read:
`key` (set by `_loadData`), `smart` and `subtype`. -/
structure Collection where
  key : String
  smart : Bool
  subtype : String
deriving Repr, DecidableEq

/-- Python `str.lower()` restricted to its ASCII action: lower-case each
character (`item.title.lower() == title.lower()` in `Collection.item`). -/
def pyLower (s : String) : String :=
  String.mk (s.data.map Char.toLower)

/-- `prefixOf p s = true` iff the character list `p` is a prefix of `s`;
this is the per-position match test of CPython `str.replace`. -/
def prefixOf : List Char → List Char → Bool
  | [], _ => true
  | _ :: _, [] => false
  | p :: ps, c :: cs => p = c && prefixOf ps cs

/-- `occursIn pat s = true` iff `pat` occurs as a contiguous subsequence
of `s` (Python `pat in s`). -/
def occursIn (pat : List Char) : List Char → Bool
  | [] => prefixOf pat []
  | c :: rest => prefixOf pat (c :: rest) || occursIn pat rest

/-- Core of CPython `str.replace(pat, '')`: scan left to right; whenever
(nonempty) `pat` matches at the current position, drop it and resume after
the match, else keep the character.  `fuel` (instantiated with the string
length, which always suffices since each step consumes at least one
character) keeps the recursion structural. -/
def pyRemoveAux (pat : List Char) : Nat → List Char → List Char
  | _, [] => []
  | 0, s => s
  | fuel + 1, c :: rest =>
    if prefixOf pat (c :: rest) = true ∧ pat ≠ [] then
      pyRemoveAux pat fuel ((c :: rest).drop pat.length)
    else
      c :: pyRemoveAux pat fuel rest

/-- Python `s.endswith(t)`: `t` is a suffix of `s`, i.e. the reverse of `t`
is a prefix of the reverse of `s`. -/
def pyEndsWith (s t : String) : Bool :=
  prefixOf t.data.reverse s.data.reverse

/-- Python `s.replace(pat, '')`: remove every (leftmost, non-overlapping)
occurrence of `pat` from `s`. -/
def pyReplaceRemove (s pat : String) : String :=
  String.mk (pyRemoveAux pat.data s.data.length s.data)

/-- Line 70 of `collection.py` (`_loadData`):
`self.key = data.attrib.get('key', '').replace('/children', '')`. -/
def loadKey (rawKey : String) : String :=
  pyReplaceRemove rawKey "/children"

/-- The attributes of a raw server record read by the verified operations;
defaults mirror `data.attrib.get(...)` defaults (`key` defaults to `''`,
`smart` to false via `utils.cast(bool, ..., '0')`). -/
structure RawAttrib where
  key : String := ""
  smart : Bool := false
  subtype : String := ""
deriving Repr, DecidableEq

/-- The fragment of `Collection._loadData` populating the verified fields. -/
def loadData (a : RawAttrib) : Collection :=
  { key := loadKey a.key, smart := a.smart, subtype := a.subtype }

/-- `Collection.isVideo`: `self.subtype in {'movie', 'show', 'season', 'episode'}`. -/
def Collection.isVideo (c : Collection) : Bool :=
  ["movie", "show", "season", "episode"].contains c.subtype

/-- `Collection.isAudio`: `self.subtype in {'artist', 'album', 'track'}`. -/
def Collection.isAudio (c : Collection) : Bool :=
  ["artist", "album", "track"].contains c.subtype

/-- `Collection.isPhoto`: `self.subtype in {'photoalbum', 'photo'}`. -/
def Collection.isPhoto (c : Collection) : Bool :=
  ["photoalbum", "photo"].contains c.subtype

/-- `Collection.listType`: `'video'`/`'audio'`/`'photo'` by the three
predicates in order, else `raise Unsupported('Unexpected collection type')`. -/
def Collection.listType (c : Collection) : Except PlexError String :=
  if c.isVideo then .ok "video"
  else if c.isAudio then .ok "audio"
  else if c.isPhoto then .ok "photo"
  else .error (.unsupported "Unexpected collection type")

/-- The validation loop of `Collection.addItems`: for each item in order,
raise `BadRequest` if `item.type != self.subtype`, else collect
`str(item.ratingKey)`. -/
def validateItems (subtype : String) : List Item → Except PlexError (List String)
  | [] => .ok []
  | i :: rest =>
    if i.type ≠ subtype then
      .error (.badRequest ("Can not mix media types when building a collection: "
        ++ subtype ++ " and " ++ i.type))
    else
      (validateItems subtype rest).map (fun ks => toString i.ratingKey :: ks)

/-- `Collection.addItems`: smart-collection guard, per-item type validation,
then a single PUT to `<key>/items` carrying
`<uriRoot>/library/metadata/<id1>,<id2>,...`. -/
def Collection.addItems (c : Collection) (uriRoot : String) (items : List Item) : OpResult :=
  if c.smart then
    ([], some (.badRequest "Cannot add items to a smart collection."))
  else
    match validateItems c.subtype items with
    | .error e => ([], some e)
    | .ok ratingKeys =>
      let uri := uriRoot ++ "/library/metadata/" ++ String.intercalate "," ratingKeys
      ([{ method := "PUT", path := c.key ++ "/items", uri := some uri }], none)

/-- `Collection.removeItems`: smart-collection guard, then one DELETE per
item at `<key>/items/<ratingKey>`, in input order. -/
def Collection.removeItems (c : Collection) (items : List Item) : OpResult :=
  if c.smart then
    ([], some (.badRequest "Cannot remove items from a smart collection."))
  else
    (items.map (fun i =>
      { method := "DELETE", path := c.key ++ "/items/" ++ toString i.ratingKey }), none)

/-- `Collection.updateFilters`: regular-collection guard, then a single PUT
to `<key>/items` carrying `<uriRoot><searchKey>`; `searchKey` is built by
the external `LibrarySection._buildSearchKey` and passed in here. -/
def Collection.updateFilters (c : Collection) (uriRoot searchKey : String) : OpResult :=
  if !c.smart then
    ([], some (.badRequest "Cannot update filters for a regular collection."))
  else
    ([{ method := "PUT", path := c.key ++ "/items", uri := some (uriRoot ++ searchKey) }], none)

/-- The `mode_dict` lookup of `Collection.modeUpdate`
(`{'default': -1, 'hide': 0, 'hideItems': 1, 'showItems': 2}.get(mode)`). -/
def mode_dict (mode : String) : Option Int :=
  if mode = "default" then some (-1)
  else if mode = "hide" then some 0
  else if mode = "hideItems" then some 1
  else if mode = "showItems" then some 2
  else none

/-- The `sort_dict` lookup of `Collection.sortUpdate`
(`{'release': 0, 'alpha': 1, 'custom': 2}.get(sort)`). -/
def sort_dict (sort : String) : Option Int :=
  if sort = "release" then some 0
  else if sort = "alpha" then some 1
  else if sort = "custom" then some 2
  else none

/-- Modelled from the spec: `editAdvanced` comes from
`AdvancedSettingsMixin` in `plexapi/mixins.py`, which is outside this
module; spec §6 specifies it as "update advanced setting: PUT `<key>/prefs`
with `<settingKey>=<value>`". -/
def Collection.editAdvanced (c : Collection) (settingKey : String) (value : Int) : List Request :=
  [{ method := "PUT", path := c.key ++ "/prefs", setting := some (settingKey, value) }]

/-- `Collection.modeUpdate`: look `mode` up in `mode_dict`; unknown modes
raise `BadRequest` listing the options, known ones edit `collectionMode`. -/
def Collection.modeUpdate (c : Collection) (mode : String) : OpResult :=
  match mode_dict mode with
  | none => ([], some (.badRequest ("Unknown collection mode : " ++ mode
      ++ ". Options ['default', 'hide', 'hideItems', 'showItems']")))
  | some k => (c.editAdvanced "collectionMode" k, none)

/-- `Collection.sortUpdate`: look `sort` up in `sort_dict`; unknown sorts
raise `BadRequest` listing the options, known ones edit `collectionSort`. -/
def Collection.sortUpdate (c : Collection) (sort : String) : OpResult :=
  match sort_dict sort with
  | none => ([], some (.badRequest ("Unknown sort dir: " ++ sort
      ++ ". Options: ['release', 'alpha', 'custom']")))
  | some k => (c.editAdvanced "collectionSort" k, none)

/-- The lookup loop of `Collection.item`: first member whose lower-cased
title equals the lower-cased query, else `NotFound` naming the query. -/
def itemLookup (title : String) : List Item → Except PlexError Item
  | [] => .error (.notFound ("Item with title \"" ++ title
      ++ "\" not found in the collection"))
  | i :: rest =>
    if pyLower i.title = pyLower title then .ok i
    else itemLookup title rest

/-- `Collection.get`: `return self.item(title)` (alias). -/
def getLookup (title : String) (members : List Item) : Except PlexError Item :=
  itemLookup title members

/-- `Collection.items`: if the `_items` cache is empty, fetch
`<key>/children` through the external record store (`fetch`) and store the
result; else return the cache.  Returns the member list, the new cache
state, and the requests issued. -/
def Collection.items (c : Collection) (fetch : String → List Item)
    (cache : Option (List Item)) : List Item × Option (List Item) × List Request :=
  match cache with
  | some its => (its, some its, [])
  | none =>
    let its := fetch (c.key ++ "/children")
    (its, some its, [{ method := "GET", path := c.key ++ "/children" }])

/-- The validation loop of `Collection._create`: `itemType` is the first
item's type; a mismatching item raises `BadRequest` (message without the
type names), else collect `str(item.ratingKey)`. -/
def validateCreateItems (itemType : String) : List Item → Except PlexError (List String)
  | [] => .ok []
  | i :: rest =>
    if i.type ≠ itemType then
      .error (.badRequest "Can not mix media types when building a collection.")
    else
      (validateCreateItems itemType rest).map (fun ks => toString i.ratingKey :: ks)

/-- `Collection._create`: creating a regular collection.  Empty item list
raises `BadRequest`; otherwise validate all items against the first item's
type and POST to `/library/collections` with reference URI
`<uriRoot>/library/metadata/<id1>,<id2>,...` (the `type`, `title`,
`smart=0`, `sectionId` query parameters are encoded by external helpers
and not recorded, see `Request`). -/
def Collection.createRegular (uriRoot title sectionKey : String)
    (items : List Item) : OpResult :=
  match items with
  | [] => ([], some (.badRequest "Must include items to add when creating new collection."))
  | first :: _ =>
    match validateCreateItems first.type items with
    | .error e => ([], some e)
    | .ok ratingKeys =>
      let uri := uriRoot ++ "/library/metadata/" ++ String.intercalate "," ratingKeys
      ([{ method := "POST", path := "/library/collections", uri := some uri }], none)

/-! ## Helper lemmas about the string-removal core of `_loadData` -/

/-- `prefixOf p s` holds exactly when `s` begins with `p`, phrased via `take`. -/
theorem prefixOf_eq_true_iff (p s : List Char) : prefixOf p s = true ↔ s.take p.length = p := by
  induction p generalizing s with
  | nil => simp [prefixOf]
  | cons a ps ih =>
    cases s with
    | nil => simp [prefixOf]
    | cons c cs =>
      simp only [prefixOf, Bool.and_eq_true, decide_eq_true_eq, ih, List.length_cons,
        List.take_succ_cons, List.cons.injEq]
      constructor
      · rintro ⟨h1, h2⟩; exact ⟨h1.symm, h2⟩
      · rintro ⟨h1, h2⟩; exact ⟨h1.symm, h2⟩

/-- Every list is a prefix of itself. -/
theorem prefixOf_self (l : List Char) : prefixOf l l = true := by
  rw [prefixOf_eq_true_iff]
  exact List.take_length l

/-- A string in which the pattern does not occur is left unchanged by the
removal scan (given enough fuel). -/
theorem pyRemoveAux_no_occurrence (pat s : List Char) (fuel : Nat)
    (hf : s.length ≤ fuel) (h : occursIn pat s = false) :
    pyRemoveAux pat fuel s = s := by
  induction s generalizing fuel with
  | nil => cases fuel <;> simp [pyRemoveAux]
  | cons c rest ih =>
    cases fuel with
    | zero => simp at hf
    | succ f =>
      simp only [occursIn, Bool.or_eq_false_iff] at h
      simp only [pyRemoveAux, h.1]
      rw [if_neg (by simp)]
      have hf' : rest.length ≤ f := by simpa using hf
      rw [ih f hf' h.2]

/-- If the nonempty pattern has no border (no proper nonempty suffix of it
is also a prefix of it) and does not occur in `p`, then the removal scan on
`p ++ pat` strips exactly the trailing copy of `pat`.  The border condition
rules out a match that straddles the boundary between `p` and `pat`; the
pattern `"/children"` satisfies it because `'/'` occurs only at its head. -/
theorem pyRemoveAux_strip_trailing (pat : List Char) (hne : pat ≠ [])
    (hnb : ∀ k, k < pat.length → 0 < k → prefixOf (pat.drop k) pat = false)
    (p : List Char) (fuel : Nat) (hf : (p ++ pat).length ≤ fuel)
    (h : occursIn pat p = false) :
    pyRemoveAux pat fuel (p ++ pat) = p := by
  induction p generalizing fuel with
  | nil =>
    match pat, hne with
    | a :: pr, _ =>
      cases fuel with
      | zero => simp at hf
      | succ f =>
        show pyRemoveAux (a :: pr) (f + 1) (a :: pr) = []
        simp only [pyRemoveAux]
        rw [if_pos ⟨prefixOf_self _, by simp⟩]
        rw [List.drop_length]
        cases f <;> simp [pyRemoveAux]
  | cons c p' ih =>
    cases fuel with
    | zero => simp at hf
    | succ f =>
      simp only [occursIn, Bool.or_eq_false_iff] at h
      have key : prefixOf pat ((c :: p') ++ pat) = false := by
        by_contra hcon
        have h' : prefixOf pat ((c :: p') ++ pat) = true := by
          cases hx : prefixOf pat ((c :: p') ++ pat) with
          | true => rfl
          | false => exact absurd hx hcon
        rw [prefixOf_eq_true_iff] at h'
        rcases le_or_lt pat.length (c :: p').length with hle | hlt
        · rw [List.take_append_of_le_length hle] at h'
          have hpre : prefixOf pat (c :: p') = true := (prefixOf_eq_true_iff _ _).mpr h'
          rw [hpre] at h
          exact absurd h.1 (by simp)
        · have hm : (c :: p').length ≤ pat.length := le_of_lt hlt
          have h1 : pat.take (c :: p').length = c :: p' := by
            calc pat.take (c :: p').length
                = (((c :: p') ++ pat).take pat.length).take (c :: p').length := by rw [h']
              _ = ((c :: p') ++ pat).take (min (c :: p').length pat.length) := by
                  rw [List.take_take]
              _ = ((c :: p') ++ pat).take (c :: p').length := by rw [min_eq_left hm]
              _ = (c :: p').take (c :: p').length := List.take_append_of_le_length (le_refl _)
              _ = c :: p' := List.take_length _
          have h2 : pat = (c :: p') ++ pat.drop (c :: p').length := by
            conv_lhs => rw [← List.take_append_drop (c :: p').length pat]
            rw [h1]
          have hlen : pat.length = (c :: p').length + (pat.drop (c :: p').length).length := by
            rw [List.length_drop]
            omega
          have h3 : pat.take (pat.drop (c :: p').length).length = pat.drop (c :: p').length := by
            have hstep : ((c :: p') ++ pat).take pat.length
                = (c :: p') ++ pat.take (pat.drop (c :: p').length).length := by
              rw [hlen, List.take_append]
            rw [hstep] at h'
            conv_rhs at h' => rw [h2]
            exact List.append_cancel_left h'
          have h4 : prefixOf (pat.drop (c :: p').length) pat = true :=
            (prefixOf_eq_true_iff _ _).mpr h3
          have h5 : prefixOf (pat.drop (c :: p').length) pat = false :=
            hnb _ hlt (by simp)
          rw [h4] at h5
          exact absurd h5 (by simp)
      show pyRemoveAux pat (f + 1) (c :: (p' ++ pat)) = c :: p'
      simp only [pyRemoveAux]
      rw [if_neg (by rw [show c :: (p' ++ pat) = (c :: p') ++ pat from rfl, key]; simp)]
      have hf' : (p' ++ pat).length ≤ f := by simpa using hf
      rw [ih f hf' h.2]

/-- The parsed `key` field of a record is exactly `loadKey` of the raw
attribute. -/
theorem loadData_key_eq (a : RawAttrib) : (loadData a).key = loadKey a.key := rfl

/-! ## Claim theorems -/

/-- C1: operation legality is determined by the `smart` flag.  On a
collection with `smart = true`, `addItems` and `removeItems` fail with the
smart-collection `BadRequest` and issue no request; on a collection with
`smart = false`, `updateFilters` fails with the regular-collection
`BadRequest` and issues no request. -/
theorem smart_flag_guards (c : Collection) (root searchKey : String) (its : List Item) :
    (c.smart = true →
      c.addItems root its = ([], some (.badRequest "Cannot add items to a smart collection."))
      ∧ c.removeItems its =
          ([], some (.badRequest "Cannot remove items from a smart collection.")))
    ∧ (c.smart = false →
      c.updateFilters root searchKey =
        ([], some (.badRequest "Cannot update filters for a regular collection."))) := by
  constructor
  · intro h
    constructor <;> simp [Collection.addItems, Collection.removeItems, h]
  · intro h
    simp [Collection.updateFilters, h]

/-- C1 witness: the guards evaluated on concrete smart and regular
collections. -/
theorem smart_flag_guards_witness :
    ((Collection.mk "/library/collections/1" true "movie").addItems "srv" [] =
      ([], some (.badRequest "Cannot add items to a smart collection.")))
    ∧ ((Collection.mk "/library/collections/1" true "movie").removeItems [] =
      ([], some (.badRequest "Cannot remove items from a smart collection.")))
    ∧ ((Collection.mk "/library/collections/2" false "movie").updateFilters "srv"
        "/sections/1/all" =
      ([], some (.badRequest "Cannot update filters for a regular collection."))) := by
  refine ⟨((smart_flag_guards (Collection.mk "/library/collections/1" true "movie")
      "srv" "/sections/1/all" []).1 rfl).1,
    ((smart_flag_guards (Collection.mk "/library/collections/1" true "movie")
      "srv" "/sections/1/all" []).1 rfl).2,
    (smart_flag_guards (Collection.mk "/library/collections/2" false "movie")
      "srv" "/sections/1/all" []).2 rfl⟩

/-- C2 counterexample: the claim says a key that does not end in
`/children` is stored unchanged, but `_loadData` removes every occurrence
of `/children` via `str.replace`: the raw key `"/children/a"` does not end
in `/children`, yet parsing changes it (to `"/a"`). -/
theorem loadKey_trailing_only_cex :
    pyEndsWith "/children/a" "/children" = false
    ∧ loadKey "/children/a" ≠ "/children/a" := by
  decide

/-- C2 amended: parsing stores the key attribute with every occurrence of
the substring `/children` removed.  In particular, for a raw key whose only
occurrence of `/children` is a trailing suffix the suffix is stripped, and
a raw key containing no occurrence at all is stored unchanged. -/
theorem loadKey_removes_occurrences (p : List Char)
    (h : occursIn ("/children" : String).data p = false) :
    loadKey (String.mk (p ++ ("/children" : String).data)) = String.mk p
    ∧ loadKey (String.mk p) = String.mk p := by
  constructor
  · show String.mk (pyRemoveAux _ _ _) = String.mk p
    congr 1
    exact pyRemoveAux_strip_trailing _ (by decide) (by decide) p _ (le_refl _) h
  · show String.mk (pyRemoveAux _ _ _) = String.mk p
    congr 1
    exact pyRemoveAux_no_occurrence _ p _ (le_refl _) h

/-- C2 witness: a realistic key with the trailing suffix is stripped, and
the same key without the suffix is unchanged. -/
theorem loadKey_removes_occurrences_witness :
    loadKey (String.mk (("/library/metadata/1" : String).data ++ ("/children" : String).data))
      = String.mk ("/library/metadata/1" : String).data
    ∧ loadKey (String.mk ("/library/metadata/1" : String).data)
      = String.mk ("/library/metadata/1" : String).data :=
  loadKey_removes_occurrences ("/library/metadata/1" : String).data (by decide)

/-- C3: `isVideo`/`isAudio`/`isPhoto` hold exactly on the video, audio and
photo subtype sets; `listType` returns the matching kind string and fails
with `Unsupported` for any subtype outside all three sets. -/
theorem classification_spec (c : Collection) :
    (c.isVideo = true ↔
      (c.subtype = "movie" ∨ c.subtype = "show" ∨ c.subtype = "season" ∨ c.subtype = "episode"))
    ∧ (c.isAudio = true ↔
      (c.subtype = "artist" ∨ c.subtype = "album" ∨ c.subtype = "track"))
    ∧ (c.isPhoto = true ↔ (c.subtype = "photoalbum" ∨ c.subtype = "photo"))
    ∧ (c.isVideo = true → c.listType = .ok "video")
    ∧ (c.isAudio = true → c.listType = .ok "audio")
    ∧ (c.isPhoto = true → c.listType = .ok "photo")
    ∧ (c.isVideo = false → c.isAudio = false → c.isPhoto = false →
        c.listType = .error (.unsupported "Unexpected collection type")) := by
  refine ⟨?_, ?_, ?_, ?_, ?_, ?_, ?_⟩
  · simp [Collection.isVideo, List.contains]
  · simp [Collection.isAudio, List.contains]
  · simp [Collection.isPhoto, List.contains]
  · intro h; simp [Collection.listType, h]
  · intro h
    have hv : c.isVideo = false := by
      have h2 : c.subtype = "artist" ∨ c.subtype = "album" ∨ c.subtype = "track" := by
        simpa [Collection.isAudio, List.contains] using h
      rcases h2 with h1 | h1 | h1 <;> simp [Collection.isVideo, List.contains, h1]
    simp [Collection.listType, hv, h]
  · intro h
    have ha : c.isAudio = false ∧ c.isVideo = false := by
      have h2 : c.subtype = "photoalbum" ∨ c.subtype = "photo" := by
        simpa [Collection.isPhoto, List.contains] using h
      rcases h2 with h1 | h1 <;>
        simp [Collection.isVideo, Collection.isAudio, List.contains, h1]
    simp [Collection.listType, ha.1, ha.2, h]
  · intro hv ha hp
    simp [Collection.listType, hv, ha, hp]

/-- C3 witness: one subtype from each set and one from none. -/
theorem classification_spec_witness :
    (Collection.mk "/k" false "movie").listType = .ok "video"
    ∧ (Collection.mk "/k" false "track").listType = .ok "audio"
    ∧ (Collection.mk "/k" false "photo").listType = .ok "photo"
    ∧ (Collection.mk "/k" false "collection").listType =
        .error (.unsupported "Unexpected collection type") :=
  ⟨(classification_spec (Collection.mk "/k" false "movie")).2.2.2.1 (by decide),
   (classification_spec (Collection.mk "/k" false "track")).2.2.2.2.1 (by decide),
   (classification_spec (Collection.mk "/k" false "photo")).2.2.2.2.2.1 (by decide),
   (classification_spec (Collection.mk "/k" false "collection")).2.2.2.2.2.2
     (by decide) (by decide) (by decide)⟩

/-- The validation loop of `addItems` fails on the first item whose type
differs from the collection subtype, naming both types, and the collected
error is a `BadRequest` carrying a type actually present in the list. -/
theorem validateItems_mixed (st : String) (its : List Item)
    (h : ∃ i ∈ its, i.type ≠ st) :
    ∃ t, t ≠ st ∧ t ∈ its.map Item.type ∧
      validateItems st its = .error (.badRequest
        ("Can not mix media types when building a collection: " ++ st ++ " and " ++ t)) := by
  induction its with
  | nil => simp at h
  | cons i rest ih =>
    by_cases hi : i.type = st
    · obtain ⟨j, hj, hjt⟩ := h
      rcases List.mem_cons.mp hj with rfl | hjr
      · exact absurd hi hjt
      · obtain ⟨t, ht1, ht2, ht3⟩ := ih ⟨j, hjr, hjt⟩
        refine ⟨t, ht1, ?_, ?_⟩
        · simpa [List.mem_cons] using Or.inr (by simpa using ht2)
        · simp [validateItems, hi, ht3, Except.map]
    · exact ⟨i.type, hi, by simp, by simp [validateItems, hi]⟩

/-- The validation loop of `addItems` succeeds when every item matches the
collection subtype, collecting the stringified rating keys in input order. -/
theorem validateItems_ok (st : String) (its : List Item)
    (h : ∀ i ∈ its, i.type = st) :
    validateItems st its = .ok (its.map (fun i => toString i.ratingKey)) := by
  induction its with
  | nil => simp [validateItems]
  | cons i rest ih =>
    have hi : i.type = st := h i (by simp)
    have hr : ∀ j ∈ rest, j.type = st := fun j hj => h j (by simp [hj])
    simp [validateItems, hi, ih hr, Except.map]

/-- C4: on a regular collection, `addItems` with a list containing an item
whose type differs from the collection subtype fails with `BadRequest`
naming both types, and issues no request. -/
theorem addItems_mixed_types (c : Collection) (root : String) (its : List Item)
    (hs : c.smart = false) (hmix : ∃ i ∈ its, i.type ≠ c.subtype) :
    ∃ t, t ≠ c.subtype ∧ t ∈ its.map Item.type ∧
      c.addItems root its = ([], some (.badRequest
        ("Can not mix media types when building a collection: "
          ++ c.subtype ++ " and " ++ t))) := by
  obtain ⟨t, h1, h2, h3⟩ := validateItems_mixed c.subtype its hmix
  exact ⟨t, h1, h2, by simp [Collection.addItems, hs, h3]⟩

/-- C4 witness: adding a show to a movie collection fails before any
request. -/
theorem addItems_mixed_types_witness :
    ∃ t, t ≠ "movie" ∧ t ∈ ([⟨"show", 2, "x"⟩] : List Item).map Item.type ∧
      (Collection.mk "/k" false "movie").addItems "srv" [⟨"show", 2, "x"⟩] =
        ([], some (.badRequest
          ("Can not mix media types when building a collection: "
            ++ "movie" ++ " and " ++ t))) :=
  addItems_mixed_types (Collection.mk "/k" false "movie") "srv" [⟨"show", 2, "x"⟩] rfl
    ⟨⟨"show", 2, "x"⟩, by simp, by decide⟩

/-- The validation loop of `_create` succeeds when every item matches the
first item's type, collecting the stringified rating keys in input order. -/
theorem validateCreateItems_ok (itemType : String) (its : List Item)
    (h : ∀ i ∈ its, i.type = itemType) :
    validateCreateItems itemType its = .ok (its.map (fun i => toString i.ratingKey)) := by
  induction its with
  | nil => simp [validateCreateItems]
  | cons i rest ih =>
    have hi : i.type = itemType := h i (by simp)
    have hr : ∀ j ∈ rest, j.type = itemType := fun j hj => h j (by simp [hj])
    simp [validateCreateItems, hi, ih hr, Except.map]

/-- C5: creating a regular collection with an empty item list fails with
`BadRequest` and issues no request; with a non-empty same-typed item list
it POSTs a reference URI joining the items' rating keys with commas in
input order after `<root>/library/metadata/`. -/
theorem createRegular_spec (root title sectionKey : String) (its : List Item) :
    (Collection.createRegular root title sectionKey [] =
      ([], some (.badRequest "Must include items to add when creating new collection.")))
    ∧ (∀ first rest, its = first :: rest → (∀ i ∈ its, i.type = first.type) →
        Collection.createRegular root title sectionKey its =
          ([{ method := "POST", path := "/library/collections",
              uri := some (root ++ "/library/metadata/"
                ++ String.intercalate "," (its.map (fun i => toString i.ratingKey))) }],
            none)) := by
  constructor
  · rfl
  · rintro first rest rfl hall
    simp [Collection.createRegular, validateCreateItems_ok first.type (first :: rest) hall]

/-- C5 witness: two movies produce the comma-joined URI; the empty list
fails. -/
theorem createRegular_spec_witness :
    Collection.createRegular "srv" "t" "5" [⟨"movie", 1, "a"⟩, ⟨"movie", 22, "b"⟩] =
      ([{ method := "POST", path := "/library/collections",
          uri := some "srv/library/metadata/1,22" }], none)
    ∧ Collection.createRegular "srv" "t" "5" [] =
      ([], some (.badRequest "Must include items to add when creating new collection.")) := by
  have h := createRegular_spec "srv" "t" "5" [⟨"movie", 1, "a"⟩, ⟨"movie", 22, "b"⟩]
  refine ⟨?_, h.1⟩
  have h2 := h.2 ⟨"movie", 1, "a"⟩ [⟨"movie", 22, "b"⟩] rfl (by decide)
  rw [h2]
  decide

/-- C6: `modeUpdate` maps default/hide/hideItems/showItems to the codes
-1/0/1/2 and `sortUpdate` maps release/alpha/custom to 0/1/2, each issuing
one advanced-setting edit; any other string fails with `BadRequest`
listing the options and issues no request. -/
theorem modeUpdate_sortUpdate_spec (c : Collection) (s : String) :
    (c.modeUpdate "default" =
      ([{ method := "PUT", path := c.key ++ "/prefs",
          setting := some ("collectionMode", -1) }], none))
    ∧ (c.modeUpdate "hide" =
      ([{ method := "PUT", path := c.key ++ "/prefs",
          setting := some ("collectionMode", 0) }], none))
    ∧ (c.modeUpdate "hideItems" =
      ([{ method := "PUT", path := c.key ++ "/prefs",
          setting := some ("collectionMode", 1) }], none))
    ∧ (c.modeUpdate "showItems" =
      ([{ method := "PUT", path := c.key ++ "/prefs",
          setting := some ("collectionMode", 2) }], none))
    ∧ (c.sortUpdate "release" =
      ([{ method := "PUT", path := c.key ++ "/prefs",
          setting := some ("collectionSort", 0) }], none))
    ∧ (c.sortUpdate "alpha" =
      ([{ method := "PUT", path := c.key ++ "/prefs",
          setting := some ("collectionSort", 1) }], none))
    ∧ (c.sortUpdate "custom" =
      ([{ method := "PUT", path := c.key ++ "/prefs",
          setting := some ("collectionSort", 2) }], none))
    ∧ (s ≠ "default" → s ≠ "hide" → s ≠ "hideItems" → s ≠ "showItems" →
        c.modeUpdate s = ([], some (.badRequest ("Unknown collection mode : " ++ s
          ++ ". Options ['default', 'hide', 'hideItems', 'showItems']"))))
    ∧ (s ≠ "release" → s ≠ "alpha" → s ≠ "custom" →
        c.sortUpdate s = ([], some (.badRequest ("Unknown sort dir: " ++ s
          ++ ". Options: ['release', 'alpha', 'custom']")))) := by
  refine ⟨?_, ?_, ?_, ?_, ?_, ?_, ?_, ?_, ?_⟩
  · simp [Collection.modeUpdate, mode_dict, Collection.editAdvanced]
  · simp [Collection.modeUpdate, mode_dict, Collection.editAdvanced]
  · simp [Collection.modeUpdate, mode_dict, Collection.editAdvanced]
  · simp [Collection.modeUpdate, mode_dict, Collection.editAdvanced]
  · simp [Collection.sortUpdate, sort_dict, Collection.editAdvanced]
  · simp [Collection.sortUpdate, sort_dict, Collection.editAdvanced]
  · simp [Collection.sortUpdate, sort_dict, Collection.editAdvanced]
  · intro h1 h2 h3 h4
    simp [Collection.modeUpdate, mode_dict, h1, h2, h3, h4]
  · intro h1 h2 h3
    simp [Collection.sortUpdate, sort_dict, h1, h2, h3]

/-- C6 witness: known and unknown mode and sort names on a concrete
collection. -/
theorem modeUpdate_sortUpdate_spec_witness :
    (Collection.mk "/k" false "movie").modeUpdate "hide" =
      ([{ method := "PUT", path := "/k/prefs", setting := some ("collectionMode", 0) }], none)
    ∧ (Collection.mk "/k" false "movie").sortUpdate "alpha" =
      ([{ method := "PUT", path := "/k/prefs", setting := some ("collectionSort", 1) }], none)
    ∧ (Collection.mk "/k" false "movie").modeUpdate "bogus" =
      ([], some (.badRequest
        "Unknown collection mode : bogus. Options ['default', 'hide', 'hideItems', 'showItems']"))
    ∧ (Collection.mk "/k" false "movie").sortUpdate "bogus" =
      ([], some (.badRequest "Unknown sort dir: bogus. Options: ['release', 'alpha', 'custom']")) := by
  have h := modeUpdate_sortUpdate_spec (Collection.mk "/k" false "movie") "bogus"
  refine ⟨?_, ?_, ?_, ?_⟩
  · rw [h.2.1]; decide
  · rw [h.2.2.2.2.2.1]; decide
  · rw [h.2.2.2.2.2.2.2.1 (by decide) (by decide) (by decide) (by decide)]; decide
  · rw [h.2.2.2.2.2.2.2.2 (by decide) (by decide) (by decide)]; decide

/-- C7: on a regular collection, `removeItems` issues exactly one DELETE
per item at `<key>/items/<ratingKey>`, in input order, with no batched
request. -/
theorem removeItems_per_item (c : Collection) (its : List Item) (hs : c.smart = false) :
    c.removeItems its =
      (its.map (fun i =>
        { method := "DELETE", path := c.key ++ "/items/" ++ toString i.ratingKey }), none)
    ∧ (c.removeItems its).1.length = its.length := by
  constructor
  · simp [Collection.removeItems, hs]
  · simp [Collection.removeItems, hs]

/-- C7 witness: two items produce two DELETE requests in order. -/
theorem removeItems_per_item_witness :
    (Collection.mk "/k" false "movie").removeItems [⟨"movie", 3, "t"⟩, ⟨"movie", 14, "u"⟩] =
      ([{ method := "DELETE", path := "/k/items/3" },
        { method := "DELETE", path := "/k/items/14" }], none)
    ∧ ((Collection.mk "/k" false "movie").removeItems
        [⟨"movie", 3, "t"⟩, ⟨"movie", 14, "u"⟩]).1.length = 2 := by
  have h := removeItems_per_item (Collection.mk "/k" false "movie")
    [⟨"movie", 3, "t"⟩, ⟨"movie", 14, "u"⟩] rfl
  refine ⟨?_, h.2⟩
  rw [h.1]
  decide

/-- C8: `item` (and its alias `get`) returns a member matching the query
title case-insensitively when one exists, and fails with `NotFound` naming
the query when no member matches. -/
theorem itemLookup_spec (members : List Item) (title : String) :
    (getLookup title members = itemLookup title members)
    ∧ ((∃ i ∈ members, pyLower i.title = pyLower title) →
        ∃ i, itemLookup title members = .ok i ∧ i ∈ members ∧ pyLower i.title = pyLower title)
    ∧ ((∀ i ∈ members, pyLower i.title ≠ pyLower title) →
        itemLookup title members = .error (.notFound
          ("Item with title \"" ++ title ++ "\" not found in the collection"))) := by
  refine ⟨rfl, ?_, ?_⟩
  · intro h
    induction members with
    | nil => simp at h
    | cons i rest ih =>
      by_cases hi : pyLower i.title = pyLower title
      · exact ⟨i, by simp [itemLookup, hi], by simp, hi⟩
      · obtain ⟨j, hj, hjt⟩ := h
        rcases List.mem_cons.mp hj with rfl | hjr
        · exact absurd hjt hi
        · obtain ⟨i', h1, h2, h3⟩ := ih ⟨j, hjr, hjt⟩
          exact ⟨i', by simp [itemLookup, hi, h1], by simp [h2], h3⟩
  · intro h
    induction members with
    | nil => rfl
    | cons i rest ih =>
      have hi : pyLower i.title ≠ pyLower title := h i (by simp)
      have hr : ∀ j ∈ rest, pyLower j.title ≠ pyLower title := fun j hj => h j (by simp [hj])
      simp [itemLookup, hi, ih hr]

/-- C8 witness: the member "FOO" is found by the query "foo"; the query
"Missing" fails with `NotFound`. -/
theorem itemLookup_spec_witness :
    (∃ i, itemLookup "foo" [⟨"movie", 1, "FOO"⟩] = .ok i
      ∧ i ∈ ([⟨"movie", 1, "FOO"⟩] : List Item) ∧ pyLower i.title = pyLower "foo")
    ∧ itemLookup "Missing" [⟨"movie", 1, "FOO"⟩] =
        .error (.notFound "Item with title \"Missing\" not found in the collection") := by
  constructor
  · exact (itemLookup_spec [⟨"movie", 1, "FOO"⟩] "foo").2.1
      ⟨⟨"movie", 1, "FOO"⟩, by simp, by decide⟩
  · have h := (itemLookup_spec [⟨"movie", 1, "FOO"⟩] "Missing").2.2 (by decide)
    rw [h]
    decide

/-- C9: `items` is memoized.  Starting from an empty cache, the first call
issues exactly the one GET at `<key>/children` and stores its result;
calling again on the resulting cache returns the identical stored list,
the identical cache, and issues no request (so every further call is the
same). -/
theorem items_memoized (c : Collection) (fetch : String → List Item) :
    (c.items fetch none).2.2 = [{ method := "GET", path := c.key ++ "/children" }]
    ∧ (c.items fetch none).2.1 = some (c.items fetch none).1
    ∧ c.items fetch (c.items fetch none).2.1 =
        ((c.items fetch none).1, (c.items fetch none).2.1, []) :=
  ⟨rfl, rfl, rfl⟩

/-- C10: on a regular collection, `addItems []` is not rejected — it issues
one PUT whose reference URI ends in `/library/metadata/` with no
identifiers — while `removeItems []` issues zero requests and no error. -/
theorem empty_items_edge (c : Collection) (root : String) (hs : c.smart = false) :
    c.addItems root [] =
      ([{ method := "PUT", path := c.key ++ "/items",
          uri := some (root ++ "/library/metadata/") }], none)
    ∧ c.removeItems [] = ([], none) := by
  constructor
  · simp [Collection.addItems, hs, validateItems, String.intercalate]
  · simp [Collection.removeItems, hs]

/-- C10 witness: the empty-list behaviour on a concrete regular
collection. -/
theorem empty_items_edge_witness :
    (Collection.mk "/k" false "movie").addItems "srv" [] =
      ([{ method := "PUT", path := "/k/items", uri := some "srv/library/metadata/" }], none)
    ∧ (Collection.mk "/k" false "movie").removeItems [] = ([], none) := by
  have h := empty_items_edge (Collection.mk "/k" false "movie") "srv" rfl
  refine ⟨?_, h.2⟩
  rw [h.1]
  decide

end PlexAPI
